import Mathlib

/-!
Verification of the US visa appointment monitor against its design notes.

The repository holds two behaviourally parallel variants of one monitor:
src/snoop_bot.py (Selenium backend) and src/visa_monitor.py (Playwright
backend), plus the single-shot entry point src/check_once.py.

The browser-driving code is embedded shallowly: one check interacts with
the remote site through a fixed sequence of element lookups, fills, clicks
and attribute reads, each of which can succeed, report a value, or raise.
A `PageEnv` records the response of the site to every such interaction of
one check; every pipeline function of the source becomes a pure Lean
function of the `PageEnv`.  `PageEnv` is finite, so universally quantified
statements about the pipelines are settled by `decide`.
-/

/-- Outcome of creating the browser session at the start of a check.
In snoop_bot.setup_driver (snoop_bot.py 52-74) the driver may fail to
construct at all (failBeforeLaunch: webdriver.Chrome raises, self.driver
stays unset) or a later stealth call may raise after the driver exists
(failAfterLaunch).  In visa_monitor.check_appointments (visa_monitor.py
194-205) the same split applies to playwright start / chromium.launch
versus new_context / new_page after self.browser is set. -/
inductive SetupOutcome
  | ok
  | failBeforeLaunch
  | failAfterLaunch
deriving DecidableEq

/-- Response of the site to the policy_confirmed checkbox lookup during
login (snoop_bot.py 114-120, visa_monitor.py 82-100): the checkbox is
found, is absent, or inspecting/clicking it raises some other error. -/
inductive CheckboxLookup
  | found
  | absent
  | raises
deriving DecidableEq

/-- Response of the site to the inspection of the text node containing
"System is busy. Please try again later." (snoop_bot.py 187-196,
visa_monitor.py 167-173): found and displayed, found but hidden, absent,
or the inspection itself raises some other error. -/
inductive BusyLookup
  | foundVisible
  | foundHidden
  | absent
  | raises
deriving DecidableEq

/-- The element responses the target site gives over one whole check.
Field order: setup outcome; whether navigating to the sign-in page raises;
whether filling the email/password fields raises; the checkbox lookup;
whether clicking the sign-in submit raises; whether reading the page URL
after submission raises; whether the browser is still on the sign-in URL
after submission; whether any step of navigate_to_reschedule raises;
whether selecting the Calgary location raises; the busy-message lookup;
whether looking up the appointments_submit control or reading its
attribute raises; whether its disabled attribute is present and truthy. -/
structure PageEnv where
  setup : SetupOutcome
  gotoRaises : Bool
  credentialFillRaises : Bool
  checkbox : CheckboxLookup
  submitClickRaises : Bool
  urlReadRaises : Bool
  landsOnSignIn : Bool
  navRaises : Bool
  locationSelectRaises : Bool
  busy : BusyLookup
  submitButtonLookupRaises : Bool
  submitDisabledAttr : Bool
deriving DecidableEq

/-- Observable outcome of one check_appointments call: the boolean the
method returns, how many notification emails it sent, how many browser
sessions it created, and how many times it released the browser resource
(driver.quit in snoop_bot.py 247-249, browser.close in
visa_monitor.py 234-238). -/
structure CheckResult where
  returned : Bool
  emailsSent : Nat
  sessionsCreated : Nat
  releases : Nat
deriving DecidableEq

/-- navigate_to_reschedule (snoop_bot.py 134-171, visa_monitor.py
127-154, identical control shape): every lookup and click sits inside one
try block whose except logs and returns False; with no failure it returns
True. -/
def navigate_to_reschedule (e : PageEnv) : Bool :=
  if e.navRaises then false else true

namespace SnoopBot

/-- login of the Selenium variant (snoop_bot.py 96-132).  Inside the try:
driver.get the sign-in URL; fill user_email and user_password; an inner
try finds policy_confirmed and clicks it, catching only
NoSuchElementException (any other error there propagates to the outer
except); click the commit button; sleep; return True.  The outer except
returns False.  Note that the resulting URL is never inspected. -/
def login (e : PageEnv) : Bool :=
  if e.gotoRaises then false
  else if e.credentialFillRaises then false
  else if e.checkbox = CheckboxLookup.raises then false
  else if e.submitClickRaises then false
  else true

/-- check_reschedule_availability of the Selenium variant (snoop_bot.py
173-213).  Inside the try: select Calgary; an inner try finds the busy
text node — if displayed return False, NoSuchElementException is caught
and skipped, any other error (including is_displayed raising) propagates
to the outer except; find appointments_submit and read its disabled
attribute: truthy gives False, falsy gives True.  The outer except
returns False. -/
def check_reschedule_availability (e : PageEnv) : Bool :=
  if e.locationSelectRaises then false
  else
    match e.busy with
    | BusyLookup.foundVisible => false
    | BusyLookup.raises => false
    | _ =>
      if e.submitButtonLookupRaises then false
      else if e.submitDisabledAttr then false
      else true

/-- check_appointments of the Selenium variant (snoop_bot.py 215-249).
setup_driver, then login, then navigate_to_reschedule, short-circuiting
to return False; then the probe: when is_available == False the method
sends the notification email and returns True, otherwise it returns
False.  The finally block quits the driver whenever it was created. -/
def check_appointments (e : PageEnv) : CheckResult :=
  match e.setup with
  | SetupOutcome.failBeforeLaunch => ⟨false, 0, 0, 0⟩
  | SetupOutcome.failAfterLaunch => ⟨false, 0, 1, 1⟩
  | SetupOutcome.ok =>
    if login e = false then ⟨false, 0, 1, 1⟩
    else if navigate_to_reschedule e = false then ⟨false, 0, 1, 1⟩
    else if check_reschedule_availability e = false then ⟨true, 1, 1, 1⟩
    else ⟨false, 0, 1, 1⟩

end SnoopBot

namespace VisaMonitor

/-- login of the Playwright variant (visa_monitor.py 68-126).  Inside the
try: goto the sign-in URL; fill both fields; an inner try handles the
policy checkbox and swallows every error there (PlaywrightTimeout and
Exception are both caught with a warning only); click the commit input;
wait; then an inner try reads page.url — if it still contains sign_in
return False — while any error reading the URL is swallowed by
except: pass, after which True is returned.  The outer except returns
False. -/
def login (e : PageEnv) : Bool :=
  if e.gotoRaises then false
  else if e.credentialFillRaises then false
  else if e.submitClickRaises then false
  else if e.urlReadRaises then true
  else if e.landsOnSignIn then false
  else true

/-- check_reschedule_availability of the Playwright variant
(visa_monitor.py 156-190).  Same shape as the Selenium probe, except the
inner try around the busy-message lookup catches every exception (bare
except), so an error there falls through to the submit-control
inspection instead of aborting the probe. -/
def check_reschedule_availability (e : PageEnv) : Bool :=
  if e.locationSelectRaises then false
  else
    match e.busy with
    | BusyLookup.foundVisible => false
    | _ =>
      if e.submitButtonLookupRaises then false
      else if e.submitDisabledAttr then false
      else true

/-- check_appointments of the Playwright variant (visa_monitor.py
192-238): identical pipeline to the Selenium variant, with the finally
block closing the browser whenever it was launched. -/
def check_appointments (e : PageEnv) : CheckResult :=
  match e.setup with
  | SetupOutcome.failBeforeLaunch => ⟨false, 0, 0, 0⟩
  | SetupOutcome.failAfterLaunch => ⟨false, 0, 1, 1⟩
  | SetupOutcome.ok =>
    if login e = false then ⟨false, 0, 1, 1⟩
    else if navigate_to_reschedule e = false then ⟨false, 0, 1, 1⟩
    else if check_reschedule_availability e = false then ⟨true, 1, 1, 1⟩
    else ⟨false, 0, 1, 1⟩

end VisaMonitor

/-- Which step of one send_notification call fails first, if any
(snoop_bot.py 76-94, visa_monitor.py 48-66, identical): building the
MIME message, opening the SMTP connection, starttls, authenticating, or
send_message itself; or the whole call succeeds. -/
inductive SmtpOutcome
  | ok
  | buildRaises
  | connectRaises
  | starttlsRaises
  | authRaises
  | sendRaises
deriving DecidableEq

/-- Observable outcome of one send_notification call: whether an
exception escaped to the caller, how many times send_message was
attempted, whether the failure was logged, and whether the message was
delivered. -/
structure NotifyResult where
  propagated : Bool
  sendAttempts : Nat
  errorLogged : Bool
  delivered : Bool
deriving DecidableEq

/-- send_notification (snoop_bot.py 76-94, visa_monitor.py 48-66): the
whole body sits in one try whose except Exception logs the failure;
nothing is re-raised and nothing is retried, so send_message runs at
most once per call. -/
def send_notification (o : SmtpOutcome) : NotifyResult :=
  match o with
  | SmtpOutcome.ok => ⟨false, 1, false, true⟩
  | SmtpOutcome.sendRaises => ⟨false, 1, true, false⟩
  | _ => ⟨false, 0, true, false⟩

/-- What one invocation of check_appointments looks like to the monitor
loop: it completes normally (it traps its own exceptions), or it raises
an unexpected error anyway, or a KeyboardInterrupt arrives. -/
inductive CheckOutcome
  | completes
  | raisesError
  | interrupted
deriving DecidableEq

/-- Observable outcome of one iteration of the run_monitor while-loop:
whether the except-branch logged an error, the list of sleep durations
performed, and whether the loop proceeds to the next iteration. -/
structure IterationResult where
  errorLogged : Bool
  sleeps : List Nat
  continues : Bool
deriving DecidableEq

/-- One iteration of run_monitor (snoop_bot.py 264-275, visa_monitor.py
253-264): run the check; on normal completion log and sleep the
configured interval; on KeyboardInterrupt log and break; on any other
exception log the error, sleep the configured interval once, and
continue. -/
def run_monitor_iteration (interval : Nat) (o : CheckOutcome) : IterationResult :=
  match o with
  | CheckOutcome.completes => ⟨false, [interval], true⟩
  | CheckOutcome.raisesError => ⟨true, [interval], true⟩
  | CheckOutcome.interrupted => ⟨false, [], false⟩

/-- The run_monitor while-loop driven by a finite schedule of check
outcomes: returns how many checks were invoked and the concatenated
sleep durations, stopping early only when an iteration does not
continue (KeyboardInterrupt). -/
def run_monitor_trace (interval : Nat) : List CheckOutcome → Nat × List Nat
  | [] => (0, [])
  | o :: rest =>
    if (run_monitor_iteration interval o).continues then
      ((run_monitor_trace interval rest).1 + 1,
        (run_monitor_iteration interval o).sleeps ++ (run_monitor_trace interval rest).2)
    else (1, (run_monitor_iteration interval o).sleeps)

/-- os.getenv over an association-list process environment. -/
def getenv (sysenv : List (String × String)) (key : String) : Option String :=
  (sysenv.find? (fun p => p.1 == key)).map (fun p => p.2)

/-- The monitor object: VisaAppointmentMonitor.__init__ (snoop_bot.py
34-50, visa_monitor.py 29-46) stores the five credential values exactly
as given, with no validation; os.getenv yields None for an unset
variable, hence the Option fields. -/
structure VisaAppointmentMonitor where
  email : Option String
  password : Option String
  notification_email : Option String
  smtp_email : Option String
  smtp_password : Option String
deriving DecidableEq

/-- The credential loading performed by the entry points (check_once.py
23-36, snoop_bot.py 284-297): five getenv reads passed straight to the
constructor. -/
def buildMonitor (sysenv : List (String × String)) : VisaAppointmentMonitor :=
  ⟨getenv sysenv "VISA_EMAIL", getenv sysenv "VISA_PASSWORD",
   getenv sysenv "NOTIFICATION_EMAIL", getenv sysenv "SMTP_EMAIL",
   getenv sysenv "SMTP_APP_PASSWORD"⟩

/-- The main block of check_once.py (lines 18-41): load the environment,
construct the monitor, and run one check unconditionally — there is no
validation step between loading and the check, so no startup failure
path exists. -/
def check_once_main (sysenv : List (String × String)) (e : PageEnv) :
    VisaAppointmentMonitor × CheckResult :=
  (buildMonitor sysenv, VisaMonitor.check_appointments e)

/-- A benign environment: session setup succeeds, nothing raises, the
login redirects away from the sign-in page, the busy message is absent
and the submit control is enabled — the probe reports availability. -/
def envAvailable : PageEnv :=
  ⟨SetupOutcome.ok, false, false, CheckboxLookup.found, false, false, false,
   false, false, BusyLookup.absent, false, false⟩

/-- Like envAvailable but the submit control carries a truthy disabled
attribute — the probe reports unavailability. -/
def envUnavailable : PageEnv :=
  ⟨SetupOutcome.ok, false, false, CheckboxLookup.found, false, false, false,
   false, false, BusyLookup.absent, false, true⟩

/-- Like envAvailable but selecting the Calgary location raises — the
probe fails, the Indeterminate case. -/
def envProbeError : PageEnv :=
  ⟨SetupOutcome.ok, false, false, CheckboxLookup.found, false, false, false,
   false, true, BusyLookup.absent, false, false⟩

/-- Form submission completes without exception but the browser remains
on the sign-in URL; the submit control on the later form is disabled. -/
def envStillOnSignIn : PageEnv :=
  ⟨SetupOutcome.ok, false, false, CheckboxLookup.found, false, false, true,
   false, false, BusyLookup.absent, false, true⟩

/-- Claim C1: the spec states that a notification email is sent if and
only if the verdict is Available. The code inverts this: at an
environment where the probe reports availability no email is sent and
the check returns False, while at an environment where the probe reports
unavailability exactly one email is sent and the check returns True, in
both variants. -/
theorem c1_notification_inverted_eval :
    SnoopBot.check_reschedule_availability envAvailable = true ∧
    (SnoopBot.check_appointments envAvailable).emailsSent = 0 ∧
    (VisaMonitor.check_appointments envAvailable).emailsSent = 0 ∧
    SnoopBot.check_reschedule_availability envUnavailable = false ∧
    (SnoopBot.check_appointments envUnavailable).emailsSent = 1 ∧
    (VisaMonitor.check_appointments envUnavailable).emailsSent = 1 := by
  decide

/-- Claim C2: for every probe run that reaches page inspection, a visible
busy message yields Unavailable regardless of the submit control, and
otherwise (busy message hidden or absent, inspection succeeding) the
verdict is Unavailable exactly when the disabled attribute is truthy and
Available when it is absent, in both variants. -/
theorem c2_probe_verdict : ∀ e : PageEnv, e.locationSelectRaises = false →
    (e.busy = BusyLookup.foundVisible →
      SnoopBot.check_reschedule_availability e = false ∧
      VisaMonitor.check_reschedule_availability e = false) ∧
    ((e.busy = BusyLookup.foundHidden ∨ e.busy = BusyLookup.absent) →
      e.submitButtonLookupRaises = false →
      SnoopBot.check_reschedule_availability e = !e.submitDisabledAttr ∧
      VisaMonitor.check_reschedule_availability e = !e.submitDisabledAttr) := by
  intro e
  obtain ⟨s, g, f, cb, sc, ur, ls, nv, lsel, b, sl, sd⟩ := e
  cases s <;> cases cb <;> cases b <;> revert g f sc ur ls nv lsel sl sd <;> decide

/-- Witness for c2_probe_verdict at the concrete environment with the
busy message absent and a truthy disabled attribute. -/
theorem c2_probe_verdict_witness :
    SnoopBot.check_reschedule_availability envUnavailable =
      !envUnavailable.submitDisabledAttr ∧
    VisaMonitor.check_reschedule_availability envUnavailable =
      !envUnavailable.submitDisabledAttr :=
  (c2_probe_verdict envUnavailable rfl).2 (Or.inr rfl) rfl

/-- Claim C3 counterexample: at an environment where form submission
completes without exception but the browser remains on the sign-in URL,
the Selenium variant login returns True, not the False the claim
requires. -/
theorem c3_counterexample_selenium_login :
    envStillOnSignIn.landsOnSignIn = true ∧
    SnoopBot.login envStillOnSignIn = true := by
  decide

/-- Claim C3 amended: when form submission completes without exception
(and the URL read succeeds), the Playwright variant login returns success
exactly when the browser is no longer on the sign-in URL, while the
Selenium variant login returns True unconditionally, never inspecting
the location. -/
theorem c3_amended_login_location : ∀ e : PageEnv,
    e.gotoRaises = false → e.credentialFillRaises = false →
    e.checkbox ≠ CheckboxLookup.raises → e.submitClickRaises = false →
    e.urlReadRaises = false →
    SnoopBot.login e = true ∧ VisaMonitor.login e = !e.landsOnSignIn := by
  intro e
  obtain ⟨s, g, f, cb, sc, ur, ls, nv, lsel, b, sl, sd⟩ := e
  cases s <;> cases cb <;> cases b <;> revert g f sc ur ls nv lsel sl sd <;> decide

/-- Witness for c3_amended_login_location at the environment that stays
on the sign-in URL. -/
theorem c3_amended_login_location_witness :
    SnoopBot.login envStillOnSignIn = true ∧
    VisaMonitor.login envStillOnSignIn = !envStillOnSignIn.landsOnSignIn :=
  c3_amended_login_location envStillOnSignIn rfl rfl (by decide) rfl rfl

/-- Claim C4: the spec states that a probe exception yields Indeterminate
and hence no notification. The probe part holds (the probe returns the
same False as Unavailable), but the caller then sends exactly one email
and returns True, because the notification condition is inverted, in
both variants. -/
theorem c4_probe_exception_sends_email :
    SnoopBot.check_reschedule_availability envProbeError = false ∧
    VisaMonitor.check_reschedule_availability envProbeError = false ∧
    (SnoopBot.check_appointments envProbeError).emailsSent = 1 ∧
    (SnoopBot.check_appointments envProbeError).returned = true ∧
    (VisaMonitor.check_appointments envProbeError).emailsSent = 1 ∧
    (VisaMonitor.check_appointments envProbeError).returned = true := by
  decide

/-- Claim C5: whenever the browser session was successfully created, the
browser resource is released exactly once before check_appointments
returns, on every exit path, in both variants. -/
theorem c5_release_exactly_once : ∀ e : PageEnv,
    e.setup ≠ SetupOutcome.failBeforeLaunch →
    (SnoopBot.check_appointments e).releases = 1 ∧
    (VisaMonitor.check_appointments e).releases = 1 := by
  intro e
  obtain ⟨s, g, f, cb, sc, ur, ls, nv, lsel, b, sl, sd⟩ := e
  cases s <;> cases cb <;> cases b <;> revert g f sc ur ls nv lsel sl sd <;> decide

/-- Witness for c5_release_exactly_once at the benign environment. -/
theorem c5_release_exactly_once_witness :
    (SnoopBot.check_appointments envAvailable).releases = 1 ∧
    (VisaMonitor.check_appointments envAvailable).releases = 1 :=
  c5_release_exactly_once envAvailable (by decide)

/-- Claim C6 counterexample: with an empty process environment every
required credential is missing, yet the single-shot entry point
constructs the monitor (all five stored fields are none) and still
creates a browser session, instead of failing at startup. -/
theorem c6_counterexample_missing_credentials :
    (check_once_main [] envAvailable).1.email = none ∧
    (check_once_main [] envAvailable).1.password = none ∧
    (check_once_main [] envAvailable).1.notification_email = none ∧
    (check_once_main [] envAvailable).1.smtp_email = none ∧
    (check_once_main [] envAvailable).1.smtp_password = none ∧
    (check_once_main [] envAvailable).2.sessionsCreated = 1 := by
  refine ⟨rfl, rfl, rfl, rfl, rfl, rfl⟩

/-- Claim C6 amended: startup never fails on missing credentials; for
every process environment, however many required fields are absent, the
entry point proceeds to run the check, and a browser session is created
whenever the browser itself launches. -/
theorem c6_amended_startup_proceeds (sysenv : List (String × String)) :
    ∀ e : PageEnv, e.setup = SetupOutcome.ok →
    (check_once_main sysenv e).2.sessionsCreated = 1 := by
  intro e
  show e.setup = SetupOutcome.ok →
    (VisaMonitor.check_appointments e).sessionsCreated = 1
  obtain ⟨s, g, f, cb, sc, ur, ls, nv, lsel, b, sl, sd⟩ := e
  cases s <;> cases cb <;> cases b <;> revert g f sc ur ls nv lsel sl sd <;> decide

/-- Witness for c6_amended_startup_proceeds at the empty environment. -/
theorem c6_amended_startup_proceeds_witness :
    (check_once_main [] envAvailable).2.sessionsCreated = 1 :=
  c6_amended_startup_proceeds [] envAvailable rfl

/-- Claim C7: an iteration of the monitor loop whose check raises an
unexpected error logs the error, sleeps exactly once for the configured
interval, and continues; and a loop fed any number of consecutive
erroring checks still invokes every one of them, sleeping once per
check, never terminating because of a check error. -/
theorem c7_loop_error_one_sleep (interval n : Nat) :
    run_monitor_iteration interval CheckOutcome.raisesError =
      ⟨true, [interval], true⟩ ∧
    run_monitor_trace interval (List.replicate n CheckOutcome.raisesError) =
      (n, List.replicate n interval) := by
  refine ⟨rfl, ?_⟩
  induction n with
  | zero => rfl
  | succ m ih => simp [List.replicate_succ, run_monitor_trace, run_monitor_iteration, ih]

/-- Claim C8: send_notification never propagates an exception to its
caller, attempts the SMTP send at most once per call (no retry), and
logs an error exactly when some step failed. -/
theorem c8_notification_failure_contained : ∀ o : SmtpOutcome,
    (send_notification o).propagated = false ∧
    (send_notification o).sendAttempts ≤ 1 ∧
    (send_notification o).errorLogged = decide (o ≠ SmtpOutcome.ok) := by
  intro o
  cases o <;> decide

/-- Claim C9 counterexample: at the environment where form submission
completes but the browser remains on the sign-in URL, the two variants
disagree on login (Selenium True, Playwright False) and on the overall
check result (Selenium True with one email sent, Playwright False with
none). -/
theorem c9_counterexample_variants_diverge :
    SnoopBot.login envStillOnSignIn = true ∧
    VisaMonitor.login envStillOnSignIn = false ∧
    (SnoopBot.check_appointments envStillOnSignIn).returned = true ∧
    (SnoopBot.check_appointments envStillOnSignIn).emailsSent = 1 ∧
    (VisaMonitor.check_appointments envStillOnSignIn).returned = false ∧
    (VisaMonitor.check_appointments envStillOnSignIn).emailsSent = 0 := by
  decide

/-- Claim C9 amended: the variants are equivalent only away from their
divergent error handling: for every environment where the checkbox
inspection does not raise, the busy-message inspection does not raise,
and the browser leaves the sign-in URL after submission, both variants
return the same boolean from login and identical results from the whole
check. -/
theorem c9_amended_equivalence : ∀ e : PageEnv,
    e.checkbox ≠ CheckboxLookup.raises → e.busy ≠ BusyLookup.raises →
    e.landsOnSignIn = false →
    SnoopBot.login e = VisaMonitor.login e ∧
    SnoopBot.check_appointments e = VisaMonitor.check_appointments e := by
  intro e
  obtain ⟨s, g, f, cb, sc, ur, ls, nv, lsel, b, sl, sd⟩ := e
  cases s <;> cases cb <;> cases b <;> revert g f sc ur ls nv lsel sl sd <;> decide

/-- Witness for c9_amended_equivalence at the benign environment. -/
theorem c9_amended_equivalence_witness :
    SnoopBot.login envAvailable = VisaMonitor.login envAvailable ∧
    SnoopBot.check_appointments envAvailable =
      VisaMonitor.check_appointments envAvailable :=
  c9_amended_equivalence envAvailable (by decide) (by decide) rfl

/-- Claim C10: whenever the session is created and login and navigation
both succeed, check_appointments returns the negation of the boolean the
availability probe produced, in both variants — the return value cannot
be read as availability. -/
theorem c10_return_negates_probe : ∀ e : PageEnv,
    e.setup = SetupOutcome.ok →
    (SnoopBot.login e = true → navigate_to_reschedule e = true →
      (SnoopBot.check_appointments e).returned =
        !(SnoopBot.check_reschedule_availability e)) ∧
    (VisaMonitor.login e = true → navigate_to_reschedule e = true →
      (VisaMonitor.check_appointments e).returned =
        !(VisaMonitor.check_reschedule_availability e)) := by
  intro e
  obtain ⟨s, g, f, cb, sc, ur, ls, nv, lsel, b, sl, sd⟩ := e
  cases s <;> cases cb <;> cases b <;> revert g f sc ur ls nv lsel sl sd <;> decide

/-- Witness for c10_return_negates_probe at the benign environment. -/
theorem c10_return_negates_probe_witness :
    (SnoopBot.check_appointments envAvailable).returned =
      !(SnoopBot.check_reschedule_availability envAvailable) ∧
    (VisaMonitor.check_appointments envAvailable).returned =
      !(VisaMonitor.check_reschedule_availability envAvailable) :=
  ⟨(c10_return_negates_probe envAvailable rfl).1 rfl rfl,
   (c10_return_negates_probe envAvailable rfl).2 rfl rfl⟩
